import Mathlib

/-!
# AtlasIQ frontend: input classification and place-resolution pipeline

Shallow embedding of the client-side classifier / resolver / navigation
controller of the AtlasIQ travel-exploration app
(`frontend/src/App.jsx` and the tab state of `useGlobe`), together with
theorems settling the frozen claims about it.

Modelling conventions, used throughout:
* JavaScript strings are modelled as `List Char` (`Str`); all inputs of
  interest are ASCII, so `toLowerCase`, `trim`, `\w`, `\s` are modelled by
  their ASCII restrictions.
* JavaScript numbers are modelled as `Int`; every numeric constant in the
  modelled code is integral, and the only truthiness test applied to a
  number in the modelled code is against `0`.
* `undefined` / `null` / missing record fields are modelled as `none`;
  a missing string field is also rendered as the empty string where the
  source only ever reads it as a string (`country.code`).
* Regular-expression `test` is modelled by an executable backtracking
  matcher over an explicit regex AST (`RE`), with word boundaries and
  anchors; `r.test(s)` means "a match exists starting at some position".
-/

namespace AtlasIQ

abbrev Str := List Char

/-- Convert a string literal to the `Str` model type. -/
def str (s : String) : Str := s.toList

/-- The apostrophe character (written via its code point). -/
def apos : Char := Char.ofNat 39

/-- ASCII whitespace, as trimmed by `String.prototype.trim` and matched by
`\s` (space, tab, LF, VT, FF, CR). -/
def isWS (c : Char) : Bool :=
  c == ' ' || c == '\t' || c == '\n' || c == '\r' ||
  c == Char.ofNat 11 || c == Char.ofNat 12

/-- ASCII lower-casing of one character (`String.prototype.toLowerCase`
restricted to ASCII). -/
def lcChar (c : Char) : Char :=
  if 'A' ≤ c && c ≤ 'Z' then Char.ofNat (c.toNat + 32) else c

/-- `s.toLowerCase()` (ASCII). -/
def lcStr (s : Str) : Str := s.map lcChar

/-- `s.trim()`: drop leading and trailing whitespace. -/
def trimStr (s : Str) : Str :=
  ((s.dropWhile isWS).reverse.dropWhile isWS).reverse

/-- `hay.includes(needle)` on strings: `needle` occurs contiguously in
`hay` (every string includes the empty string). -/
def containsSub (hay needle : Str) : Bool :=
  if needle.isPrefixOf hay then true
  else
    match hay with
    | [] => false
    | _ :: t => containsSub t needle

/-- Decimal rendering of a natural number, as `String(n)`. -/
def natStr (n : Nat) : Str := (toString n).toList

/-- Decimal rendering of an integer, as `String(i)`. -/
def intStr (i : Int) : Str := (toString i).toList

/-! ## Text normalizer (`extractPlace`, App.jsx) -/

/-- The fixed ordered list of conversational lead-in prefixes stripped by
`extractPlace` (App.jsx lines 35–39). -/
def LEAD_INS : List Str :=
  [ str "let" ++ [apos] ++ str "s go to ", str "lets go to ", str "go to ",
    str "fly to ", str "take me to ",
    str "show me ", str "show ", str "where is ", str "tell me about ",
    str "about ",
    str "i want to " ++ str "visit ", str "visit ", str "explore " ]

/-- The `for … of prefixes` loop of `extractPlace`: strip the first
matching prefix (in list order) and `trim` the remainder; at most one
prefix is stripped (the loop `break`s). -/
def stripLeadIn : List Str → Str → Str
  | [], place => place
  | p :: ps, place =>
    if p.isPrefixOf place then trimStr (place.drop p.length)
    else stripLeadIn ps place

/-- `extractPlace(input)` (App.jsx lines 32–48): lower-case, trim, then
strip at most one conversational lead-in. -/
def extractPlace (input : Str) : Str :=
  stripLeadIn LEAD_INS (trimStr (lcStr input))

/-! ## Gibberish guard (`looksLikeGibberish`, App.jsx) -/

/-- `NON_PLACE_WORDS` (App.jsx lines 51–55): the fixed block-list of
greetings / fillers. -/
def NON_PLACE_WORDS : List Str :=
  [ str "hi", str "hello", str "hey", str "yo", str "sup", str "ok",
    str "yes", str "no", str "thanks", str "thank",
    str "bye", str "help", str "please", str "test", str "lol", str "wow",
    str "cool", str "nice", str "good",
    str "bad", str "what", str "how", str "why", str "who", str "when",
    str "where", str "the", str "hola", str "ciao" ]

/-- The character class `[aeiouy]` used by the guard: the code counts `y`
as a vowel, both for the vowel test and for the consonant-run test. -/
def isVowelY (c : Char) : Bool :=
  c == 'a' || c == 'e' || c == 'i' || c == 'o' || c == 'u' || c == 'y'

/-- Is `c` an ASCII lower-case letter? (the class `[a-z]`). -/
def isLowerAZ (c : Char) : Bool := 'a' ≤ c && c ≤ 'z'

/-- Auxiliary scan for `/[^aeiouy]{k,}/`: is there a run of at least `k`
consecutive non-`[aeiouy]` characters?  `cur` is the length of the
current run. -/
def consRunAux (k : Nat) : Str → Nat → Bool
  | [], cur => decide (k ≤ cur)
  | c :: t, cur =>
    if k ≤ cur then true
    else if isVowelY c then consRunAux k t 0
    else consRunAux k t (cur + 1)

/-- `/[^aeiouy]{k,}/.test(s)`. -/
def hasConsRun (k : Nat) (s : Str) : Bool := consRunAux k s 0

/-- `looksLikeGibberish(text)` (App.jsx lines 108–118), translated
clause by clause: strip non-letters from the lower-cased text, then
reject on length < 3, block-list membership, no `[aeiouy]` vowel, or a
run of six or more consecutive non-`[aeiouy]` characters. -/
def looksLikeGibberish (text : Str) : Bool :=
  let clean := (lcStr text).filter isLowerAZ
  if clean.length < 3 then true
  else if NON_PLACE_WORDS.contains clean then true
  else if !(clean.any isVowelY) then true
  else if hasConsRun 6 clean then true
  else false

/-! ## Claim-side (spec-worded) definitions for C1 and C2 -/

/-- The gibberish guard as the (amended) claim words it: a disjunction of
the four rejection rules, with `y` counted as a vowel. -/
def gibberishSpec (text : Str) : Bool :=
  let clean := (lcStr text).filter isLowerAZ
  decide (clean.length < 3) || NON_PLACE_WORDS.contains clean ||
    !(clean.any isVowelY) || hasConsRun 6 clean

/-- The normalizer as the claim words it: lower-case and trim, then strip
the first matching prefix in list order (if any), trimming the remainder;
no recursive stripping. -/
def normalizeSpec (input : Str) : Str :=
  let base := trimStr (lcStr input)
  match LEAD_INS.find? (fun p => p.isPrefixOf base) with
  | some p => trimStr (base.drop p.length)
  | none => base

/-! ## Regular expressions

An executable model of the (ASCII fragment of the) JavaScript regexes
used by the classifier.  `RE` is the AST; `reTest r s` models
`/r/.test(s)`: a match exists starting at some position of `s`.  The
matcher is a continuation-passing backtracking matcher carrying the
previous character (for `\b` and `^`); it is driven by a fuel argument
that bounds the *depth* of the search.  The depth of any search is at
most one per regex node on the current path plus one per star iteration,
and the star case only iterates after consuming at least one character,
so `(size + 2) * (length + 2)` fuel is always sufficient; `reTest`
supplies that much. -/

/-- Regex AST: empty word, single-character class, concatenation,
alternation, Kleene star, word boundary `\b`, `^`, `$`. -/
inductive RE where
  | eps : RE
  | cls (p : Char → Bool) : RE
  | cat (a b : RE) : RE
  | alt (a b : RE) : RE
  | star (a : RE) : RE
  | wb : RE
  | bos : RE
  | eos : RE

/-- Number of nodes of a regex (for the fuel bound). -/
def RE.size : RE → Nat
  | .eps => 1
  | .cls _ => 1
  | .cat a b => a.size + b.size + 1
  | .alt a b => a.size + b.size + 1
  | .star a => a.size + 1
  | .wb => 1
  | .bos => 1
  | .eos => 1

/-- JavaScript `\w`: ASCII letters, digits, underscore. -/
def wordChar (c : Char) : Bool := c.isAlpha || c.isDigit || c == '_'

/-- Is there a word boundary between a previous character (`none` at the
start of the string) and a next character (`none` at the end)? -/
def isBoundary (prev next : Option Char) : Bool :=
  (match prev with | none => false | some c => wordChar c) !=
  (match next with | none => false | some c => wordChar c)

/-- The matcher.  `reM fuel r prev s k`: does `r` match a prefix of `s`
(with `prev` the character just before `s` in the full subject, `none`
at the very start), continuing with `k` on the rest?  Backtracking is by
disjunction, which is sound and complete for `test` (existence of a
match).  The star case skips iterations that consume nothing, which
preserves the set of reachable positions. -/
def reM : Nat → RE → Option Char → Str → (Option Char → Str → Bool) → Bool
  | 0, _, _, _, _ => false
  | _ + 1, .eps, prev, s, k => k prev s
  | _ + 1, .cls p, _, s, k =>
    match s with
    | [] => false
    | c :: t => p c && k (some c) t
  | fuel + 1, .cat a b, prev, s, k =>
    reM fuel a prev s (fun prev₂ s₂ => reM fuel b prev₂ s₂ k)
  | fuel + 1, .alt a b, prev, s, k =>
    reM fuel a prev s k || reM fuel b prev s k
  | fuel + 1, .star a, prev, s, k =>
    k prev s ||
      reM fuel a prev s (fun prev₂ s₂ =>
        decide (s₂.length < s.length) && reM fuel (.star a) prev₂ s₂ k)
  | _ + 1, .wb, prev, s, k => isBoundary prev s.head? && k prev s
  | _ + 1, .bos, prev, s, k => prev.isNone && k prev s
  | _ + 1, .eos, prev, s, k => s.isEmpty && k prev s

/-- Try a match at every start position (unanchored search), threading
the true previous character. -/
def reSearch (fuel : Nat) (r : RE) : Option Char → Str → Bool
  | prev, s =>
    reM fuel r prev s (fun _ _ => true) ||
      match s with
      | [] => false
      | c :: t => reSearch fuel r (some c) t

/-- `/r/.test(s)`. -/
def reTest (r : RE) (s : Str) : Bool :=
  reSearch ((r.size + 2) * (s.length + 2)) r none s

/-! ### Regex construction helpers -/

/-- A literal string. -/
def RE.lit (w : Str) : RE :=
  w.foldr (fun c r => RE.cat (RE.cls (fun x => x == c)) r) RE.eps

/-- `r?`. -/
def RE.opt (r : RE) : RE := RE.alt r RE.eps

/-- `r+`. -/
def RE.plus (r : RE) : RE := RE.cat r (RE.star r)

/-- `\s+`. -/
def wsPlus : RE := RE.plus (RE.cls isWS)

/-- `.` (without dot-all: anything but a line terminator; ASCII model). -/
def dotAny : RE := RE.cls (fun c => !(c == '\n' || c == '\r'))

/-- `.*`. -/
def dotStarRE : RE := RE.star dotAny

/-- Alternation of a list (empty list matches nothing). -/
def reAlt : List RE → RE
  | [] => RE.cls (fun _ => false)
  | [r] => r
  | r :: rs => RE.alt r (reAlt rs)

/-- Segments joined by `\s+` (for patterns like `locate\s+me`). -/
def segsRE : List Str → RE
  | [] => RE.eps
  | [seg] => RE.lit seg
  | seg :: rest => RE.cat (RE.lit seg) (RE.cat wsPlus (segsRE rest))

/-- A word given as a string with spaces: each space stands for `\s+`
(as in `locate\s+me`); other characters are literals. -/
def wordRE (w : String) : RE := segsRE (w.toList.splitOn ' ')

/-- `word` with an optional plural `s` (`words?`). -/
def wordS (w : String) : RE := RE.cat (wordRE w) (RE.opt (RE.lit (str "s")))

/-- `\b(alternatives)\b`. -/
def wordAlt (rs : List RE) : RE :=
  RE.cat RE.wb (RE.cat (reAlt rs) RE.wb)

/-- `^(alternatives)\b`. -/
def headAlt (rs : List RE) : RE :=
  RE.cat RE.bos (RE.cat (reAlt rs) RE.wb)

/-! ## The classifier patterns (App.jsx lines 58–98)

All patterns except `/\?$/` carry the `i` flag; this is modelled by
testing them against the lower-cased subject, with the patterns written
in lower case (ASCII). -/

/-- `/^(compare|vs\.?|versus)\b/i`. -/
def agentRE1 : RE :=
  headAlt [ RE.lit (str "compare"),
            RE.cat (RE.lit (str "vs")) (RE.opt (RE.lit (str "."))),
            RE.lit (str "versus") ]

/-- `/\b(compare|vs\.?|versus|compared to)\b.*\b(and|with|to)\b/i`
(the space in `compared to` is a literal space). -/
def agentRE2 : RE :=
  RE.cat
    (wordAlt [ RE.lit (str "compare"),
               RE.cat (RE.lit (str "vs")) (RE.opt (RE.lit (str "."))),
               RE.lit (str "versus"),
               RE.lit (str "compared to") ])
    (RE.cat dotStarRE
      (wordAlt [RE.lit (str "and"), RE.lit (str "with"),
                RE.lit (str "to")]))

/-- `/^(which|what|how|why|who|where|when|is|are|do|does|can|should|rank|list|top|best|worst|safest|cheapest)\b/i`. -/
def agentRE3 : RE :=
  headAlt ([ "which", "what", "how", "why", "who", "where", "when", "is",
             "are", "do", "does", "can", "should", "rank", "list", "top",
             "best", "worst", "safest", "cheapest" ].map
    (fun w => RE.lit (str w)))

/-- `/\?$/`. -/
def agentRE4 : RE := RE.cat (RE.lit (str "?")) RE.eos

/-- `/\b(news|weather|forecast|temperature|climate|events?|festivals?|tips?|advice|guide|budget|cost|safety|visa|currency|language|culture|traditions?|history|facts?|trivia)\b/i`. -/
def agentRE5 : RE :=
  wordAlt [ RE.lit (str "news"), RE.lit (str "weather"),
            RE.lit (str "forecast"), RE.lit (str "temperature"),
            RE.lit (str "climate"), wordS "event", wordS "festival",
            wordS "tip", RE.lit (str "advice"), RE.lit (str "guide"),
            RE.lit (str "budget"), RE.lit (str "cost"),
            RE.lit (str "safety"), RE.lit (str "visa"),
            RE.lit (str "currency"), RE.lit (str "language"),
            RE.lit (str "culture"), wordS "tradition",
            RE.lit (str "history"), wordS "fact", RE.lit (str "trivia") ]

/-- `AGENT_PATTERNS` (App.jsx lines 58–65). -/
def AGENT_PATTERNS : List RE := [agentRE1, agentRE2, agentRE3, agentRE4, agentRE5]

/-- Pattern 1 of `PLACES_PATTERNS` (restaurants / food …). -/
def placesRE1 : RE :=
  wordAlt [ wordS "restaurant", RE.lit (str "food"), RE.lit (str "eat"),
            RE.lit (str "eating"), RE.lit (str "dine"),
            RE.lit (str "dining"), RE.lit (str "cafe"),
            RE.lit (str "cafes"), RE.lit (str "coffee"),
            RE.lit (str "bakery"), RE.lit (str "bakeries"),
            RE.lit (str "dessert"), RE.lit (str "brunch"),
            RE.lit (str "breakfast"), RE.lit (str "lunch"),
            RE.lit (str "dinner"), wordRE "street food" ]

/-- Pattern 2 (hotels …). -/
def placesRE2 : RE :=
  wordAlt [ wordS "hotel", wordS "hostel", wordS "resort", wordS "stay",
            RE.lit (str "accommodation"), RE.lit (str "lodge"),
            RE.lit (str "motel"), RE.lit (str "guesthouse") ]

/-- Pattern 3 (shopping …). -/
def placesRE3 : RE :=
  wordAlt [ RE.lit (str "shopping"), RE.lit (str "mall"),
            RE.lit (str "market"), RE.lit (str "bazaar"), wordS "store",
            RE.lit (str "boutique"), RE.lit (str "souvenir") ]

/-- Pattern 4 (attractions …). -/
def placesRE4 : RE :=
  wordAlt [ wordS "attraction", RE.lit (str "sightseeing"),
            wordS "museum", wordS "temple", RE.lit (str "church"),
            RE.lit (str "mosque"), wordS "monument", wordS "landmark",
            wordS "park", wordS "garden", RE.lit (str "zoo"),
            RE.lit (str "aquarium"), RE.lit (str "palace"),
            RE.lit (str "fort"), RE.lit (str "castle"),
            RE.lit (str "gallery"), RE.lit (str "galleries") ]

/-- Pattern 5 (nightlife …). -/
def placesRE5 : RE :=
  wordAlt [ RE.lit (str "nightlife"), wordS "club", RE.lit (str "disco"),
            RE.lit (str "lounge"), wordS "pub", wordS "bar",
            RE.lit (str "brewery"), RE.lit (str "breweries"),
            RE.lit (str "rooftop") ]

/-- Pattern 6: `/\b(places?\s+to\s+(visit|go|see|eat|stay|shop|explore))\b/i`. -/
def placesRE6 : RE :=
  wordAlt [ RE.cat (wordS "place")
      (RE.cat wsPlus (RE.cat (RE.lit (str "to"))
        (RE.cat wsPlus (reAlt ([ "visit", "go", "see", "eat", "stay",
                                 "shop", "explore" ].map
          (fun w => RE.lit (str w))))))) ]

/-- Pattern 7: `/\b(things?\s+to\s+do)\b/i`. -/
def placesRE7 : RE :=
  wordAlt [ RE.cat (wordS "thing")
      (RE.cat wsPlus (RE.cat (RE.lit (str "to"))
        (RE.cat wsPlus (RE.lit (str "do"))))) ]

/-- Pattern 8: `/\b(where\s+to\s+(eat|stay|shop|visit|go|drink))\b/i`. -/
def placesRE8 : RE :=
  wordAlt [ RE.cat (RE.lit (str "where"))
      (RE.cat wsPlus (RE.cat (RE.lit (str "to"))
        (RE.cat wsPlus (reAlt ([ "eat", "stay", "shop", "visit", "go",
                                 "drink" ].map
          (fun w => RE.lit (str w))))))) ]

/-- Pattern 9: `/\b(what\s+to\s+(eat|see|do|visit))\b/i`. -/
def placesRE9 : RE :=
  wordAlt [ RE.cat (RE.lit (str "what"))
      (RE.cat wsPlus (RE.cat (RE.lit (str "to"))
        (RE.cat wsPlus (reAlt ([ "eat", "see", "do", "visit" ].map
          (fun w => RE.lit (str w))))))) ]

/-- `PLACES_PATTERNS` (App.jsx lines 68–78). -/
def PLACES_PATTERNS : List RE :=
  [placesRE1, placesRE2, placesRE3, placesRE4, placesRE5, placesRE6,
   placesRE7, placesRE8, placesRE9]

/-- `NEAR_ME_PATTERN = /\bnear\s+me\b/i` (App.jsx line 80). -/
def nearMeRE : RE := wordAlt [wordRE "near me"]

/-- `NEAR_ME_PATTERN.test(input)`. -/
def nearMeTest (input : Str) : Bool := reTest nearMeRE (lcStr input)

/-- `i'?m` (optional apostrophe). -/
def imRE : RE :=
  RE.cat (RE.lit (str "i")) (RE.cat (RE.opt (RE.lit [apos]))
    (RE.lit (str "m")))

/-- `/\b(locate\s+me|find\s+me|where\s+am\s+i|where\s+i\s+am|where\s+i'?m\s+at)\b/`. -/
def locateRE1 : RE :=
  wordAlt [ wordRE "locate me", wordRE "find me", wordRE "where am i",
            wordRE "where i am",
            RE.cat (RE.lit (str "where"))
              (RE.cat wsPlus (RE.cat imRE
                (RE.cat wsPlus (RE.lit (str "at"))))) ]

/-- `/\b(my\s+(current\s+)?location|my\s+place|my\s+position|current\s+location)\b/`. -/
def locateRE2 : RE :=
  wordAlt [ RE.cat (RE.lit (str "my"))
              (RE.cat wsPlus
                (RE.cat (RE.opt (RE.cat (RE.lit (str "current")) wsPlus))
                  (RE.lit (str "location")))),
            wordRE "my place", wordRE "my position",
            wordRE "current location" ]

/-- `/\b(show|find|detect|identify|pinpoint|tell)\b.*(my\s+location|where\s+i)/`
(no boundary around the second group). -/
def locateRE3 : RE :=
  RE.cat
    (wordAlt ([ "show", "find", "detect", "identify", "pinpoint",
                "tell" ].map (fun w => RE.lit (str w))))
    (RE.cat dotStarRE
      (reAlt [wordRE "my location", wordRE "where i"]))

/-- `/\b(which|what)\b.*(place|city|country|location)\b.*(am\s+i|i'?m)\s+in\b/`. -/
def locateRE4 : RE :=
  RE.cat (wordAlt [RE.lit (str "which"), RE.lit (str "what")])
    (RE.cat dotStarRE
      (RE.cat (reAlt [RE.lit (str "place"), RE.lit (str "city"),
                      RE.lit (str "country"), RE.lit (str "location")])
        (RE.cat RE.wb
          (RE.cat dotStarRE
            (RE.cat (reAlt [wordRE "am i", imRE])
              (RE.cat wsPlus (RE.cat (RE.lit (str "in")) RE.wb)))))))

/-- `/\bfind\s+(out\s+)?where\s+i\b/`. -/
def locateRE5 : RE :=
  RE.cat RE.wb
    (RE.cat (RE.lit (str "find"))
      (RE.cat wsPlus
        (RE.cat (RE.opt (RE.cat (RE.lit (str "out")) wsPlus))
          (RE.cat (RE.lit (str "where"))
            (RE.cat wsPlus (RE.cat (RE.lit (str "i")) RE.wb))))))

/-- `/\bwhat\s+is\s+my\s+(location|position|place)\b/`. -/
def locateRE6 : RE :=
  RE.cat RE.wb
    (RE.cat (wordRE "what is my")
      (RE.cat wsPlus
        (RE.cat (reAlt [RE.lit (str "location"), RE.lit (str "position"),
                        RE.lit (str "place")]) RE.wb)))

/-- `/\b(what|which)\b.*\bam\s+i\s+in\b/`. -/
def locateRE7 : RE :=
  RE.cat (wordAlt [RE.lit (str "what"), RE.lit (str "which")])
    (RE.cat dotStarRE (wordAlt [wordRE "am i in"]))

/-- `isLocateMeQuery(input)` (App.jsx lines 83–98): lower-case the input
and test the seven phrasings in turn (an `if … return true` chain is a
disjunction). -/
def isLocateMeQuery (input : Str) : Bool :=
  let lower := lcStr input
  reTest locateRE1 lower || reTest locateRE2 lower ||
  reTest locateRE3 lower || reTest locateRE4 lower ||
  reTest locateRE5 lower || reTest locateRE6 lower ||
  reTest locateRE7 lower

/-- `isAgentQuery(input)` (App.jsx lines 100–104): trim, then test the
agent patterns and the places patterns (all case-insensitive; modelled by
testing the lower-cased trimmed input). -/
def isAgentQuery (input : Str) : Bool :=
  let t := lcStr (trimStr input)
  AGENT_PATTERNS.any (fun r => reTest r t) ||
  PLACES_PATTERNS.any (fun r => reTest r t)

/-! ## Data model: countries, continents, resolved places -/

/-- A Gazetteer entry as served by `getCountries` and consumed by the
controller, including the optional synthetic fields the controller itself
attaches (`_chatOnly`, `_placeName`, `_initialMessage`; absent on real
dataset entries). -/
structure Country where
  name : Str
  code : Str
  lat : Int
  lng : Int
  climate : Str
  safety_index : Int
  beach_score : Int
  nightlife_score : Int
  cost_of_living : Int
  sightseeing_score : Int
  cultural_score : Int
  adventure_score : Int
  food_score : Int
  infrastructure_score : Int
  chatOnly : Bool
  placeName : Option Str
  initialMessage : Option Str
deriving DecidableEq

/-- A plain dataset country (no synthetic fields, zero scores; only the
identity and coordinates matter to the modelled logic). -/
def baseCountry (name code : Str) (lat lng : Int) : Country :=
  { name := name, code := code, lat := lat, lng := lng, climate := [],
    safety_index := 0, beach_score := 0, nightlife_score := 0,
    cost_of_living := 0, sightseeing_score := 0, cultural_score := 0,
    adventure_score := 0, food_score := 0, infrastructure_score := 0,
    chatOnly := false, placeName := none, initialMessage := none }

/-- Continent centroid data (`CONTINENTS` values, App.jsx lines 18–29). -/
structure ContData where
  lat : Int
  lng : Int
  alt : Int
deriving DecidableEq

/-- The `CONTINENTS` table, in object-literal insertion order. -/
def CONTINENTS : List (Str × ContData) :=
  [ (str "africa", ⟨2, 21, 8000000⟩),
    (str "europe", ⟨50, 10, 5000000⟩),
    (str "asia", ⟨35, 90, 8000000⟩),
    (str "north america", ⟨40, -100, 8000000⟩),
    (str "south america", ⟨-15, -60, 8000000⟩),
    (str "oceania", ⟨-25, 135, 8000000⟩),
    (str "australia", ⟨-25, 135, 5000000⟩),
    (str "antarctica", ⟨-82, 0, 8000000⟩),
    (str "middle east", ⟨28, 45, 5000000⟩),
    (str "southeast asia", ⟨5, 110, 5000000⟩) ]

/-- Result of the static location check (`detectLocation`). -/
inductive Loc where
  | continent (name : Str) (lat lng alt : Int)
  | country (c : Country)
deriving DecidableEq

/-- The `for (const [name, coords] of Object.entries(CONTINENTS))` loop
with early `return`: first entry whose name the place equals or
contains. -/
def findContinentLoop (place : Str) : List (Str × ContData) → Option Loc
  | [] => none
  | (n, d) :: rest =>
    if place == n || containsSub place n then
      some (.continent n d.lat d.lng d.alt)
    else findContinentLoop place rest

/-- The `for (const c of countries)` loop with early `return`: first
country whose lower-cased name the place equals or contains, or (when
the place has at least 3 characters) whose lower-cased name starts with
the place. -/
def findCountryLoop (place : Str) : List Country → Option Loc
  | [] => none
  | c :: rest =>
    let n := lcStr c.name
    if place == n || containsSub place n ||
        (decide (3 ≤ place.length) && place.isPrefixOf n) then
      some (.country c)
    else findCountryLoop place rest

/-- `detectLocation(input, countries)` (App.jsx lines 121–141):
continents first, then countries, `null` on an empty extracted place. -/
def detectLocation (input : Str) (countries : List Country) : Option Loc :=
  let place := extractPlace input
  if place.isEmpty then none
  else
    match findContinentLoop place CONTINENTS with
    | some l => some l
    | none => findCountryLoop place countries

/-- The static detection as claim C5 words it: the first matching
continent (equal or contained), else the first matching country under
the three-way rule, else nothing — written with `List.find?`. -/
def detectLocationSpec (input : Str) (countries : List Country) :
    Option Loc :=
  let place := extractPlace input
  if place.isEmpty then none
  else
    match CONTINENTS.find?
        (fun p => place == p.1 || containsSub place p.1) with
    | some (n, d) => some (.continent n d.lat d.lng d.alt)
    | none =>
      (countries.find? (fun c =>
        let n := lcStr c.name
        place == n || containsSub place n ||
          (decide (3 ≤ place.length) && place.isPrefixOf n))).map .country

/-! ## Tab / session state (`useGlobe`, services/api.js lines 434–517) -/

/-- One open tab: `{ id, country, score, insight }`. -/
structure Tab where
  id : Str
  country : Country
  score : Option Int
  insight : Option Str
deriving DecidableEq

/-- The tab/session state: the open tabs in insertion order and the
active tab id (`null` when none). -/
structure TabState where
  openTabs : List Tab
  activeTabId : Option Str
deriving DecidableEq

/-- The empty tab state. -/
def TabState.empty : TabState := ⟨[], none⟩

/-- `addTab(country, score, insight)` (api.js lines 445–461): de-dupe on
`(code, _placeName)`; on a hit activate the existing tab and return its
id, else append a new tab (id from code-or-name plus the current time)
and activate it.  `now` stands for `Date.now()`. -/
def addTabId (country : Country) (now : Nat) : Str :=
  (if country.code.isEmpty then country.name else country.code) ++
    str "_" ++ natStr now

/-- The de-duplication key predicate of `addTab`. -/
def tabKeyEq (country : Country) (t : Tab) : Bool :=
  t.country.code == country.code &&
  t.country.placeName == country.placeName

def addTab (st : TabState) (country : Country) (score : Option Int)
    (insight : Option Str) (now : Nat) : Str × TabState :=
  match st.openTabs.find? (tabKeyEq country) with
  | some t => (t.id, ⟨st.openTabs, some t.id⟩)
  | none =>
    let id := addTabId country now
    let newTab : Tab := ⟨id, country, score, insight⟩
    (id, ⟨st.openTabs ++ [newTab], some id⟩)

/-- `removeTab(tabId)` (api.js lines 463–475): drop the tab, then update
the active id exactly as the source's functional update does. -/
def removeTab (st : TabState) (tabId : Str) : TabState :=
  let next := st.openTabs.filter (fun t => t.id != tabId)
  let newActive :=
    if st.activeTabId == some tabId && !next.isEmpty then
      match next.getLast? with
      | some t => some t.id
      | none => none
    else if next.isEmpty then none
    else st.activeTabId
  ⟨next, newActive⟩

/-- The invariant of the claims: a non-null active tab id refers to an
open tab. -/
def activeOk (st : TabState) : Prop :=
  match st.activeTabId with
  | none => True
  | some a => ∃ t ∈ st.openTabs, t.id = a

/-- Keys are distinct: at most one tab per `(code, _placeName)` pair. -/
def keysNodup (tabs : List Tab) : Prop :=
  tabs.Pairwise (fun t u =>
    (t.country.code, t.country.placeName) ≠
    (u.country.code, u.country.placeName))

/-! ## The navigation controller (`handleExplore` and helpers)

The controller's asynchronous collaborators are supplied as oracles in
`Env`; a run of the controller is modelled as the list of UI effects it
performs, in order, together with the updated tab state. -/

/-- JavaScript string truthiness for an optional string field. -/
def strTruthy (o : Option Str) : Option Str :=
  match o with
  | some s => if s.isEmpty then none else some s
  | none => none

/-- `err.message || default`. -/
def errMsgOr (m d : Str) : Str := if m.isEmpty then d else m

/-- A rejected remote call: the optional HTTP status
(`err.response?.status`) and the error message (`err.message`). -/
structure ApiErr where
  status : Option Nat
  message : Str
deriving DecidableEq

/-- The shape returned by `resolvePlace` / `resolvePlaceImage`. -/
structure Resolved where
  name : Str
  code : Str
  lat : Int
  lng : Int
  place_name : Option Str
deriving DecidableEq

/-- `resolved && resolved.name`: the resolved place, if present with a
non-empty name. -/
def truthyResolved (ro : Option Resolved) : Option Resolved :=
  match ro with
  | some r => if r.name.isEmpty then none else some r
  | none => none

/-- One entry of `data.rankings` from `getRecommendations`. -/
structure Ranking where
  code : Str
  name : Str
  score : Int
  insight : Str
deriving DecidableEq

/-- The `getRecommendations` payload. -/
structure RecData where
  rankings : List Ranking
  explanation : Str
deriving DecidableEq

/-- One nearby place from `searchNearbyPlaces`. -/
structure NearPlace where
  name : Str
  lat : Int
  lng : Int
deriving DecidableEq

/-- The `searchNearbyPlaces` payload. -/
structure NearbyData where
  places : List NearPlace
deriving DecidableEq

/-- Oracles for the asynchronous collaborators of one controller run
(each `await` either yields a value or throws an `ApiErr`). -/
structure Env where
  requestLocation : Except ApiErr (Int × Int)
  searchNearbyPlaces : Str → Int → Int → Except ApiErr NearbyData
  reverseGeocode : Int → Int → Except ApiErr (Option Str)
  resolvePlace : Str → Except ApiErr (Option Resolved)
  getRecommendations : Str → Except ApiErr RecData

/-- Observable effects of a controller run, in order. -/
inductive Eff where
  | setError (e : Option Str)
  | setLoading (b : Bool)
  | addSearch (s : Str)
  | requestLocationCall
  | nearbyCall (q : Str) (lat lng : Int)
  | reverseGeocodeCall (lat lng : Int)
  | resolveCall (q : Str)
  | recommendCall (q : Str)
  | setRecommendations (d : RecData)
  | flyTo (lat lng : Int) (alt : Option Int)
  | showPlacePins (ps : List NearPlace)
  | setActivePlaces (ps : Option (List NearPlace))
  | setSelectedPlace (p : Option NearPlace)
  | addTabEff (c : Country) (score : Option Int) (insight : Option Str)
  | pinPhoto (lat lng : Int) (placeName countryName : Option Str)
      (tabId : Option Str)
deriving DecidableEq

/-- The error messages the controller surfaces. -/
def apiKeyErrMsg : Str :=
  str "API key is invalid or expired. Please update your OpenRouter API key."

/-- The validation-rejection message for gibberish input. -/
def validationErrMsg : Str :=
  str "That doesn" ++ [apos] ++
  str "t look like a real place. Try a city, country, or landmark name."

/-- The generic recommendation-failure message. -/
def recFailMsg : Str :=
  str "Failed to get recommendations. Check your API key and try again."

/-- The empty nearby-results message. -/
def noNearbyMsg : Str :=
  str "No places found near your location. Try a different search."

/-- The nearby-search failure fallback message. -/
def nearbyFailMsg : Str := str "Failed to search nearby places"

/-- The geolocation failure fallback message. -/
def locateFailMsg : Str :=
  str "Failed to get your location. Please enable location permissions."

/-- `pinPhotoOnGlobe(lat, lng, placeName, countryName, tabId)` (App.jsx
lines 206–224): a best-effort asynchronous photo lookup, modelled as the
single effect recording its initiation; nothing is initiated when both
names are falsy. -/
def pinPhotoOnGlobe (lat lng : Int) (placeName countryName : Option Str)
    (tabId : Option Str) : List Eff :=
  match strTruthy placeName, strTruthy countryName with
  | none, none => []
  | _, _ => [Eff.pinPhoto lat lng placeName countryName tabId]

/-- A chat-only synthetic country record (all scores zero, empty
climate), as built inline by `navigateToResolved` and `_openAgentTab`. -/
def mkChatOnly (name code : Str) (lat lng : Int)
    (placeName initialMessage : Option Str) : Country :=
  { baseCountry name code lat lng with
    chatOnly := true,
    placeName := placeName,
    initialMessage := initialMessage }

/-- `navigateToResolved(resolved, initialMessage)` (App.jsx lines
226–266): match the resolved place against the dataset; on a hit open a
tab for the dataset country enriched with the sub-place and optional
initial message and fly to the resolved (or dataset) coordinates; on a
miss open a chat-only tab, flying only when both coordinates are
non-zero (the source's `resolved.lat && resolved.lng`). -/
def navigateToResolved (countries : List Country) (r : Resolved)
    (initialMessage : Option Str) (st : TabState) (now : Nat) :
    List Eff × TabState :=
  match countries.find? (fun c =>
      c.code == r.code || lcStr c.name == lcStr r.name) with
  | some dc =>
    let flyLat := if r.lat == 0 then dc.lat else r.lat
    let flyLng := if r.lng == 0 then dc.lng else r.lng
    let cw : Country :=
      { dc with
        placeName := r.place_name,
        initialMessage :=
          (match strTruthy initialMessage with
           | some m => some m
           | none => dc.initialMessage) }
    let res := addTab st cw none none now
    ([Eff.addTabEff cw none none, Eff.flyTo flyLat flyLng none] ++
      pinPhotoOnGlobe flyLat flyLng r.place_name (some r.name)
        (some res.1), res.2)
  | none =>
    let cc : Country := mkChatOnly r.name r.code r.lat r.lng r.place_name
      (strTruthy initialMessage)
    let res := addTab st cc none none now
    ([Eff.addTabEff cc none none] ++
      (if r.lat != 0 && r.lng != 0 then
        [Eff.flyTo r.lat r.lng none] ++
          pinPhotoOnGlobe r.lat r.lng r.place_name (some r.name)
            (some res.1)
       else []), res.2)

/-- `_openAgentTab(query)` (App.jsx lines 269–282): a synthetic
chat-only agent tab with the query as initial message and a label
clipped to 30 characters. -/
def openAgentTab (query : Str) (st : TabState) (now : Nat) :
    List Eff × TabState :=
  let shortLabel :=
    if 30 < query.length then query.take 30 ++ str "..." else query
  let c : Country := mkChatOnly (str "AtlasIQ Agent")
    (str "_agent_" ++ natStr now) 0 0 (some shortLabel) (some query)
  let st' := (addTab st c none none now).2
  ([Eff.addTabEff c none none], st')

/-- The "near me" branch of `handleExplore` (App.jsx lines 290–309). -/
def nearMeBranch (interests : Str) (env : Env) : List Eff :=
  [Eff.setLoading true, Eff.requestLocationCall] ++
  (match env.requestLocation with
   | .error err =>
     [Eff.setError (some (errMsgOr err.message nearbyFailMsg))]
   | .ok (lat, lng) =>
     [Eff.nearbyCall interests lat lng] ++
     match env.searchNearbyPlaces interests lat lng with
     | .error err =>
       [Eff.setError (some (errMsgOr err.message nearbyFailMsg))]
     | .ok data =>
       if !data.places.isEmpty then
         [Eff.flyTo lat lng none, Eff.showPlacePins data.places,
          Eff.setActivePlaces (some data.places),
          Eff.setSelectedPlace none]
       else [Eff.setError (some noNearbyMsg)]) ++
  [Eff.setLoading false]

/-- The "locate me" branch of `handleExplore` (App.jsx lines 312–332). -/
def locateMeBranch (countries : List Country) (env : Env)
    (st : TabState) (now : Nat) : List Eff × TabState :=
  let pre := [Eff.setLoading true, Eff.requestLocationCall]
  match env.requestLocation with
  | .error err =>
    (pre ++ [Eff.setError (some (errMsgOr err.message locateFailMsg)),
             Eff.setLoading false], st)
  | .ok (lat, lng) =>
    let e1 := pre ++ [Eff.flyTo lat lng none, Eff.reverseGeocodeCall lat lng]
    match env.reverseGeocode lat lng with
    | .error err =>
      (e1 ++ [Eff.setError (some (errMsgOr err.message locateFailMsg)),
              Eff.setLoading false], st)
    | .ok placeName =>
      let arg :=
        match strTruthy placeName with
        | some p => p
        | none => intStr lat ++ str "," ++ intStr lng
      let e2 := e1 ++ [Eff.resolveCall arg]
      match env.resolvePlace arg with
      | .error err =>
        (e2 ++ [Eff.setError (some (errMsgOr err.message locateFailMsg)),
                Eff.setLoading false], st)
      | .ok ro =>
        match truthyResolved ro with
        | some r =>
          let res := navigateToResolved countries r none st now
          (e2 ++ res.1 ++ [Eff.setLoading false], res.2)
        | none =>
          (e2 ++
            (if (strTruthy placeName).isSome then [Eff.setError none]
             else []) ++ [Eff.setLoading false], st)

/-- Step 2 and step 3 of `handleExplore` (App.jsx lines 392–435): agent
fallback tab, gibberish rejection, or the recommendation flow. -/
def exploreStep2 (interests : Str) (countries : List Country)
    (agentQuery gibberish : Bool) (env : Env) (st : TabState) (now : Nat)
    (loading0 : Bool) : List Eff × TabState :=
  if agentQuery then
    let res := openAgentTab interests st now
    (res.1 ++ [Eff.setLoading false], res.2)
  else if gibberish then
    ([Eff.setError (some validationErrMsg), Eff.setLoading false], st)
  else
    let pre := (if !loading0 then [Eff.setLoading true] else []) ++
      [Eff.recommendCall interests]
    match env.getRecommendations interests with
    | .error err =>
      (pre ++
        [Eff.setError (some (if err.status == some 401 then apiKeyErrMsg
                             else recFailMsg)),
         Eff.setLoading false], st)
    | .ok data =>
      match data.rankings with
      | [] => (pre ++ [Eff.setRecommendations data, Eff.setLoading false],
               st)
      | r0 :: _ =>
        match countries.find? (fun c => c.code == r0.code) with
        | none =>
          (pre ++ [Eff.setRecommendations data, Eff.setLoading false], st)
        | some top =>
          let res := addTab st top (some r0.score) (some r0.insight) now
          (pre ++
            [Eff.setRecommendations data,
             Eff.addTabEff top (some r0.score) (some r0.insight),
             Eff.flyTo top.lat top.lng (some 3000000)] ++
            pinPhotoOnGlobe top.lat top.lng none (some top.name)
              (some res.1) ++
            [Eff.setLoading false], res.2)

/-- `handleExplore(interests)` (App.jsx lines 284–438): the full
controller run for one text query.  `now` stands for `Date.now()`,
`loading0` for the render-time value of `loading` captured by the
closure (read only by the `if (!loading) setLoading(true)` of the
recommendation flow). -/
def handleExplore (interests : Str) (countries : List Country) (env : Env)
    (st : TabState) (now : Nat) (loading0 : Bool) : List Eff × TabState :=
  let pre := [Eff.setError none, Eff.addSearch interests]
  if nearMeTest interests then (pre ++ nearMeBranch interests env, st)
  else if isLocateMeQuery interests then
    let res := locateMeBranch countries env st now
    (pre ++ res.1, res.2)
  else
    let agentQuery := isAgentQuery interests
    match detectLocation interests countries with
    | some (.country c) =>
      if agentQuery then
        let cw : Country := { c with initialMessage := some interests }
        let st' := (addTab st cw none none now).2
        (pre ++ [Eff.addTabEff cw none none,
                 Eff.flyTo c.lat c.lng none] ++
          pinPhotoOnGlobe c.lat c.lng none (some c.name) none, st')
      else
        let res := addTab st c none none now
        (pre ++ [Eff.addTabEff c none none,
                 Eff.flyTo c.lat c.lng none] ++
          pinPhotoOnGlobe c.lat c.lng none (some c.name) (some res.1),
          res.2)
    | some (.continent _ lat lng alt) =>
      (pre ++ [Eff.flyTo lat lng (some alt)], st)
    | none =>
      let place := extractPlace interests
      let gibberish := looksLikeGibberish place
      if !gibberish || agentQuery then
        let arg := if agentQuery then interests else place
        let e1 := pre ++ [Eff.setLoading true, Eff.resolveCall arg]
        match env.resolvePlace arg with
        | .ok ro =>
          match truthyResolved ro with
          | some r =>
            let res := navigateToResolved countries r
              (if agentQuery then some interests else none) st now
            (e1 ++ res.1 ++ [Eff.setLoading false], res.2)
          | none =>
            let res := exploreStep2 interests countries agentQuery
              gibberish env st now loading0
            (e1 ++ res.1, res.2)
        | .error err =>
          if err.status == some 401 then
            (e1 ++ [Eff.setError (some apiKeyErrMsg),
                    Eff.setLoading false], st)
          else
            let res := exploreStep2 interests countries agentQuery
              gibberish env st now loading0
            (e1 ++ res.1, res.2)
      else
        let res := exploreStep2 interests countries agentQuery
          gibberish env st now loading0
        (pre ++ res.1, res.2)

/-! ## Helper lemmas: lower-casing and trimming -/

theorem toNat_ofNat_valid (n : Nat) (h : n < 55296) :
    (Char.ofNat n).toNat = n := by
  rw [Char.ofNat, dif_pos (Or.inl h)]
  simp only [Char.ofNatAux, Char.toNat]
  simp [UInt32.toNat]

theorem lcChar_idem (c : Char) : lcChar (lcChar c) = lcChar c := by
  unfold lcChar
  by_cases h : ('A' ≤ c && c ≤ 'Z') = true
  · rw [if_pos h]
    obtain ⟨h1, h2⟩ := Bool.and_eq_true_iff.mp h
    have h1' : 65 ≤ c.toNat := of_decide_eq_true h1
    have h2' : c.toNat ≤ 90 := of_decide_eq_true h2
    have hv : (Char.ofNat (c.toNat + 32)).toNat = c.toNat + 32 :=
      toNat_ofNat_valid _ (by omega)
    rw [if_neg]
    intro hcontra
    obtain ⟨hc1, hc2⟩ := Bool.and_eq_true_iff.mp hcontra
    have h3 : (Char.ofNat (c.toNat + 32)).toNat ≤ 90 := of_decide_eq_true hc2
    rw [hv] at h3
    omega
  · rw [if_neg h, if_neg h]

theorem lcStr_of_forall {s : Str} (h : ∀ c ∈ s, lcChar c = c) :
    lcStr s = s := by
  induction s with
  | nil => rfl
  | cons a t ih =>
    simp only [lcStr, List.map_cons] at *
    rw [h a (by simp), ih (fun c hc => h c (by simp [hc]))]

theorem forall_of_lcStr {s : Str} (h : lcStr s = s) :
    ∀ c ∈ s, lcChar c = c := by
  induction s with
  | nil => simp
  | cons a t ih =>
    simp only [lcStr, List.map_cons, List.cons.injEq] at h
    intro c hc
    rcases List.mem_cons.mp hc with rfl | hc
    · exact h.1
    · exact ih h.2 c hc

theorem lcStr_idem (s : Str) : lcStr (lcStr s) = lcStr s := by
  apply lcStr_of_forall
  intro c hc
  obtain ⟨b, _, rfl⟩ := List.mem_map.mp hc
  exact lcChar_idem b

theorem lcStr_subset {s t : Str} (hsub : ∀ c, c ∈ t → c ∈ s)
    (h : lcStr s = s) : lcStr t = t :=
  lcStr_of_forall (fun c hc => forall_of_lcStr h c (hsub c hc))

theorem head?_dropWhile_not {p : Char → Bool} {l : Str} {a : Char}
    (h : (l.dropWhile p).head? = some a) : p a = false := by
  induction l with
  | nil => simp [List.dropWhile] at h
  | cons b t ih =>
    rw [List.dropWhile_cons] at h
    by_cases hb : p b = true
    · rw [if_pos hb] at h; exact ih h
    · rw [if_neg hb] at h
      simp only [List.head?_cons, Option.some.injEq] at h
      subst h
      exact Bool.eq_false_iff.mpr hb

theorem dropWhile_eq_self_of_head {p : Char → Bool} {l : Str}
    (h : ∀ a, l.head? = some a → p a = false) : l.dropWhile p = l := by
  cases l with
  | nil => rfl
  | cons b t => rw [List.dropWhile_cons, if_neg (by simp [h b rfl])]

theorem getLast?_suffix {l₁ l₂ : Str} {a : Char} (hs : l₂ <:+ l₁)
    (h : l₂.getLast? = some a) : l₁.getLast? = some a := by
  obtain ⟨w, rfl⟩ := hs
  rw [List.getLast?_append, h]
  rfl

theorem trim_head_not {s : Str} {a : Char}
    (h : (trimStr s).head? = some a) : isWS a = false := by
  unfold trimStr at h
  rw [List.head?_reverse] at h
  have h2 := getLast?_suffix (List.dropWhile_suffix isWS) h
  rw [List.getLast?_reverse] at h2
  exact head?_dropWhile_not h2

theorem trim_getLast_not {s : Str} {a : Char}
    (h : (trimStr s).getLast? = some a) : isWS a = false := by
  unfold trimStr at h
  rw [List.getLast?_reverse] at h
  exact head?_dropWhile_not h

theorem trimStr_idem (s : Str) : trimStr (trimStr s) = trimStr s := by
  have h1 : (trimStr s).dropWhile isWS = trimStr s :=
    dropWhile_eq_self_of_head (fun a ha => trim_head_not ha)
  show (((trimStr s).dropWhile isWS).reverse.dropWhile isWS).reverse =
    trimStr s
  rw [h1]
  have h2 : (trimStr s).reverse.dropWhile isWS = (trimStr s).reverse := by
    apply dropWhile_eq_self_of_head
    intro a ha
    rw [List.head?_reverse] at ha
    exact trim_getLast_not ha
  rw [h2, List.reverse_reverse]

theorem trimStr_subset (s : Str) : ∀ c ∈ trimStr s, c ∈ s := by
  intro c hc
  unfold trimStr at hc
  rw [List.mem_reverse] at hc
  have h1 := (List.dropWhile_sublist isWS).subset hc
  rw [List.mem_reverse] at h1
  exact (List.dropWhile_sublist isWS).subset h1

theorem stripLeadIn_normal (ps : List Str) (u : Str) (hlc : lcStr u = u)
    (htr : trimStr u = u) :
    lcStr (stripLeadIn ps u) = stripLeadIn ps u ∧
    trimStr (stripLeadIn ps u) = stripLeadIn ps u := by
  induction ps with
  | nil => exact ⟨hlc, htr⟩
  | cons p ps ih =>
    by_cases hp : p.isPrefixOf u = true
    · simp only [stripLeadIn, if_pos hp]
      refine ⟨?_, trimStr_idem _⟩
      exact lcStr_subset
        (fun c hc => List.drop_subset _ _ (trimStr_subset _ c hc)) hlc
    · simpa only [stripLeadIn, if_neg hp] using ih

theorem extractPlace_normal (s : Str) :
    lcStr (extractPlace s) = extractPlace s ∧
    trimStr (extractPlace s) = extractPlace s := by
  unfold extractPlace
  exact stripLeadIn_normal _ _
    (lcStr_subset (trimStr_subset _) (lcStr_idem s)) (trimStr_idem _)

theorem stripLeadIn_no_match (ps : List Str) (u : Str)
    (h : ∀ p ∈ ps, p.isPrefixOf u = false) : stripLeadIn ps u = u := by
  induction ps with
  | nil => rfl
  | cons p ps ih =>
    simp only [stripLeadIn]
    rw [if_neg (by simp [h p (List.mem_cons_self p ps)])]
    exact ih (fun q hq => h q (List.mem_cons_of_mem _ hq))

theorem stripLeadIn_eq_find (ps : List Str) (u : Str) :
    stripLeadIn ps u =
      (match ps.find? (fun p => p.isPrefixOf u) with
       | some p => trimStr (u.drop p.length)
       | none => u) := by
  induction ps with
  | nil => rfl
  | cons p ps ih =>
    by_cases hp : p.isPrefixOf u = true
    · simp only [stripLeadIn]
      rw [if_pos hp,
        show List.find? (fun q => q.isPrefixOf u) (p :: ps) = some p from
          by simp only [List.find?, hp]]
    · simp only [stripLeadIn]
      rw [if_neg hp,
        show List.find? (fun q => q.isPrefixOf u) (p :: ps) =
            List.find? (fun q => q.isPrefixOf u) ps from
          by simp only [List.find?, Bool.eq_false_iff.mpr hp]]
      exact ih

/-! ## Claim C1: the gibberish guard -/

/-- C1 (corrected): the claim's biconditional characterisation of the
gibberish guard holds once "vowel" is read as the code's `[aeiouy]`
class — `y` counts as a vowel both for the no-vowel rule and for the
consonant-run rule.  Under that reading: the guard rejects exactly on
(length of the letters-only cleanup < 3) ∨ (block-listed) ∨ (no vowel) ∨
(a run of ≥ 6 consecutive consonants); `"hi"` is gibberish, `"Tokyo"`
is not, and `"xyzzqq"` is NOT gibberish (its `y` counts as a vowel and
breaks the consonant run). -/
theorem C1_gibberish_guard :
    (∀ s : Str, looksLikeGibberish s = gibberishSpec s) ∧
    looksLikeGibberish (str "hi") = true ∧
    looksLikeGibberish (str "Tokyo") = false ∧
    looksLikeGibberish (str "xyzzqq") = false := by
  refine ⟨fun s => ?_, by decide, by decide, by decide⟩
  unfold looksLikeGibberish gibberishSpec
  by_cases h1 : ((lcStr s).filter isLowerAZ).length < 3 <;>
    by_cases h2 : NON_PLACE_WORDS.contains ((lcStr s).filter isLowerAZ) =
      true <;>
    by_cases h3 : ((lcStr s).filter isLowerAZ).any isVowelY = true <;>
    by_cases h4 : hasConsRun 6 ((lcStr s).filter isLowerAZ) = true <;>
    simp [h1, h2, h3, h4]

/-- C1 counterexample: the claim as stated calls `"xyzzqq"` gibberish
for containing no vowel; the code's guard accepts it — the cleaned
string contains none of `a`, `e`, `i`, `o`, `u`, yet the guard does not
classify it as gibberish. -/
theorem C1_gibberish_guard_cex :
    (str "xyzzqq").all (fun c =>
      !(c == 'a' || c == 'e' || c == 'i' || c == 'o' || c == 'u')) =
      true ∧
    looksLikeGibberish (str "xyzzqq") = false := by decide

/-! ## Claim C2: the text normalizer -/

/-- C2 (corrected): the normalizer lower-cases, trims, and strips at
most one conversational prefix — the first matching one in list order,
with no recursive stripping (the `List.find?` characterisation); it is
idempotent on every input whose normalized form does not itself start
with a listed prefix (but not on all inputs); and the two spec examples
hold. -/
theorem C2_normalizer :
    (∀ s : Str, extractPlace s = normalizeSpec s) ∧
    (∀ s : Str, (∀ p ∈ LEAD_INS, p.isPrefixOf (extractPlace s) = false) →
      extractPlace (extractPlace s) = extractPlace s) ∧
    extractPlace (str "Let" ++ [apos] ++ str "s go to Paris") =
      str "paris" ∧
    extractPlace (str "PARIS") = str "paris" := by
  refine ⟨fun s => ?_, fun s h => ?_, by decide, by decide⟩
  · unfold extractPlace normalizeSpec
    exact stripLeadIn_eq_find _ _
  · have hnorm := extractPlace_normal s
    show stripLeadIn LEAD_INS (trimStr (lcStr (extractPlace s))) =
      extractPlace s
    rw [hnorm.1, hnorm.2]
    exact stripLeadIn_no_match _ _ h

/-- C2 witness: the conditional idempotence applies to `"Tokyo"`. -/
theorem C2_normalizer_witness :
    extractPlace (extractPlace (str "Tokyo")) = extractPlace (str "Tokyo") :=
  C2_normalizer.2.1 (str "Tokyo") (by decide)

/-- C2 counterexample: the claim's unconditional idempotence fails —
normalizing `"go to go to paris"` strips one prefix to `"go to paris"`,
and normalizing again strips another. -/
theorem C2_normalizer_cex :
    extractPlace (extractPlace (str "go to go to paris")) ≠
      extractPlace (str "go to go to paris") := by decide

end AtlasIQ

namespace AtlasIQ

/-! ## Claim C5: static location detection -/

theorem findContinentLoop_eq_find (place : Str)
    (tbl : List (Str × ContData)) :
    findContinentLoop place tbl =
      (tbl.find? (fun p => place == p.1 || containsSub place p.1)).map
        (fun p => Loc.continent p.1 p.2.lat p.2.lng p.2.alt) := by
  induction tbl with
  | nil => rfl
  | cons e rest ih =>
    obtain ⟨n, d⟩ := e
    by_cases hm : (place == n || containsSub place n) = true
    · simp only [findContinentLoop]
      rw [if_pos hm,
        show List.find? (fun p => place == p.1 || containsSub place p.1)
            ((n, d) :: rest) = some (n, d) from
          by simp only [List.find?, hm]]
      rfl
    · simp only [findContinentLoop]
      rw [if_neg hm,
        show List.find? (fun p => place == p.1 || containsSub place p.1)
            ((n, d) :: rest) =
          List.find? (fun p => place == p.1 || containsSub place p.1)
            rest from
          by simp only [List.find?, Bool.eq_false_iff.mpr hm]]
      exact ih

theorem findCountryLoop_eq_find (place : Str) (cs : List Country) :
    findCountryLoop place cs =
      (cs.find? (fun c =>
        place == lcStr c.name || containsSub place (lcStr c.name) ||
          (decide (3 ≤ place.length) &&
            place.isPrefixOf (lcStr c.name)))).map Loc.country := by
  induction cs with
  | nil => rfl
  | cons c rest ih =>
    by_cases hm : (place == lcStr c.name ||
        containsSub place (lcStr c.name) ||
        (decide (3 ≤ place.length) && place.isPrefixOf (lcStr c.name))) =
        true
    · simp only [findCountryLoop]
      rw [if_pos hm,
        show List.find? (fun c => place == lcStr c.name ||
            containsSub place (lcStr c.name) ||
            (decide (3 ≤ place.length) &&
              place.isPrefixOf (lcStr c.name))) (c :: rest) = some c from
          by simp only [List.find?, hm]]
      rfl
    · simp only [findCountryLoop]
      rw [if_neg hm,
        show List.find? (fun c => place == lcStr c.name ||
            containsSub place (lcStr c.name) ||
            (decide (3 ≤ place.length) &&
              place.isPrefixOf (lcStr c.name))) (c :: rest) =
          List.find? (fun c => place == lcStr c.name ||
            containsSub place (lcStr c.name) ||
            (decide (3 ≤ place.length) &&
              place.isPrefixOf (lcStr c.name))) rest from
          by simp only [List.find?, Bool.eq_false_iff.mpr hm]]
      exact ih

/-- C5 (confirmed): the static detection tries continents strictly
before countries and short-circuits on the first success — it equals
the spec-worded characterisation: the first continent the normalized
string equals or contains; otherwise the first country whose name the
normalized string equals or contains, or (only when the normalized
string has ≥ 3 characters) whose name starts with the normalized
string; otherwise no static hit. -/
theorem C5_detect_location :
    ∀ (input : Str) (countries : List Country),
      detectLocation input countries = detectLocationSpec input countries := by
  intro input countries
  unfold detectLocation detectLocationSpec
  by_cases he : (extractPlace input).isEmpty = true
  · rw [if_pos he, if_pos he]
  · rw [if_neg he, if_neg he, findContinentLoop_eq_find,
      findCountryLoop_eq_find]
    rcases hf : CONTINENTS.find?
        (fun p => extractPlace input == p.1 ||
          containsSub (extractPlace input) p.1) with _ | ⟨n, d⟩ <;>
      rw [hf] <;> rfl

/-! ## Claims C3 and C4: tab/session state -/

theorem addTab_found {st : TabState} {c : Country} {s : Option Int}
    {i : Option Str} {n : Nat} {t : Tab}
    (hf : st.openTabs.find? (tabKeyEq c) = some t) :
    addTab st c s i n = (t.id, ⟨st.openTabs, some t.id⟩) := by
  simp only [addTab, hf]

theorem addTab_new {st : TabState} {c : Country} {s : Option Int}
    {i : Option Str} {n : Nat}
    (hf : st.openTabs.find? (tabKeyEq c) = none) :
    addTab st c s i n = (addTabId c n,
      ⟨st.openTabs ++ [⟨addTabId c n, c, s, i⟩], some (addTabId c n)⟩) := by
  simp only [addTab, hf]

theorem tabKeyEq_self (c : Country) (id : Str) (s : Option Int)
    (i : Option Str) : tabKeyEq c ⟨id, c, s, i⟩ = true := by
  simp [tabKeyEq]

/-- C3 (confirmed): `addTab` preserves the at-most-one-tab-per-
`(isoCode, subPlaceName)` invariant, and adding the same country twice
(same code, same sub-place name) returns the same tab id both times,
leaves the open-tab set unchanged by the second call, activates that
tab, and from an empty state leaves exactly one open tab. -/
theorem C3_addTab_dedup :
    ∀ (st : TabState) (c : Country) (s1 s2 : Option Int)
      (i1 i2 : Option Str) (n1 n2 : Nat),
      (keysNodup st.openTabs →
        keysNodup (addTab st c s1 i1 n1).2.openTabs) ∧
      (addTab (addTab st c s1 i1 n1).2 c s2 i2 n2).1 =
        (addTab st c s1 i1 n1).1 ∧
      (addTab (addTab st c s1 i1 n1).2 c s2 i2 n2).2.openTabs =
        (addTab st c s1 i1 n1).2.openTabs ∧
      (addTab (addTab st c s1 i1 n1).2 c s2 i2 n2).2.activeTabId =
        some (addTab st c s1 i1 n1).1 ∧
      (st.openTabs = [] →
        (addTab (addTab st c s1 i1 n1).2 c s2 i2 n2).2.openTabs.length =
          1) := by
  intro st c s1 s2 i1 i2 n1 n2
  rcases hf : st.openTabs.find? (tabKeyEq c) with _ | t
  · -- no existing tab with this key: the first call appends a new tab
    have h1 := addTab_new (s := s1) (i := i1) (n := n1) hf
    have hfind2 : (st.openTabs ++
        [(⟨addTabId c n1, c, s1, i1⟩ : Tab)]).find? (tabKeyEq c) =
        some ⟨addTabId c n1, c, s1, i1⟩ := by
      rw [List.find?_append, hf]
      simp only [Option.none_or, List.find?, tabKeyEq_self]
    have h2 : addTab (addTab st c s1 i1 n1).2 c s2 i2 n2 =
        ((⟨addTabId c n1, c, s1, i1⟩ : Tab).id,
          ⟨st.openTabs ++ [⟨addTabId c n1, c, s1, i1⟩],
            some (⟨addTabId c n1, c, s1, i1⟩ : Tab).id⟩) := by
      rw [h1]
      exact addTab_found hfind2
    refine ⟨?_, ?_, ?_, ?_, ?_⟩
    · intro hnodup
      rw [h1]
      show keysNodup (st.openTabs ++ [⟨addTabId c n1, c, s1, i1⟩])
      unfold keysNodup
      rw [List.pairwise_append]
      refine ⟨hnodup, List.pairwise_singleton _ _, ?_⟩
      intro a ha b hb
      simp only [List.mem_singleton] at hb
      subst hb
      have hne := List.find?_eq_none.mp hf a ha
      simp only [tabKeyEq, Bool.and_eq_true, beq_iff_eq, not_and_or]
        at hne
      intro hkey
      simp only [Prod.mk.injEq] at hkey
      rcases hne with h | h
      · exact h hkey.1
      · exact h hkey.2
    · rw [h2, h1]
    · rw [h2, h1]
    · rw [h2, h1]
    · intro hempty
      rw [h2, hempty]
      rfl
  · -- an existing tab: both calls return its id and change nothing
    have h1 := addTab_found (s := s1) (i := i1) (n := n1) hf
    have h2 : addTab (addTab st c s1 i1 n1).2 c s2 i2 n2 =
        (t.id, ⟨st.openTabs, some t.id⟩) := by
      rw [h1]
      exact addTab_found hf
    have hne : st.openTabs ≠ [] := by
      intro hempty
      rw [hempty] at hf
      simp [List.find?] at hf
    refine ⟨?_, ?_, ?_, ?_, ?_⟩
    · intro hnodup
      rw [h1]
      exact hnodup
    · rw [h2, h1]
    · rw [h2, h1]
    · rw [h2, h1]
    · intro hempty
      exact absurd hempty hne

/-- C3 witness: adding the same country twice from the empty state. -/
theorem C3_addTab_dedup_witness :
    (addTab (addTab TabState.empty (baseCountry (str "Japan") (str "JP")
        36 138) none none 1).2 (baseCountry (str "Japan") (str "JP") 36
        138) none none 2).1 =
      (addTab TabState.empty (baseCountry (str "Japan") (str "JP") 36
        138) none none 1).1 ∧
    (addTab (addTab TabState.empty (baseCountry (str "Japan") (str "JP")
        36 138) none none 1).2 (baseCountry (str "Japan") (str "JP") 36
        138) none none 2).2.openTabs.length = 1 ∧
    keysNodup (addTab TabState.empty (baseCountry (str "Japan")
      (str "JP") 36 138) none none 1).2.openTabs := by
  have h := C3_addTab_dedup TabState.empty
    (baseCountry (str "Japan") (str "JP") 36 138) none none none none 1 2
  exact ⟨h.2.1, h.2.2.2.2 rfl, h.1 List.Pairwise.nil⟩

end AtlasIQ

namespace AtlasIQ

theorem getLast?_mem {α : Type} {l : List α} {a : α}
    (h : l.getLast? = some a) : a ∈ l := by
  obtain ⟨hne, heq⟩ :=
    List.mem_getLast?_eq_getLast (Option.mem_def.mpr h)
  rw [heq]
  exact List.getLast_mem hne

/-- C4 (confirmed): `removeTab` removes the tab from the open set; when
the closed tab was active and tabs remain, the last (most recently
added) remaining tab becomes active; when no tabs remain the active id
becomes null; closing a non-active tab leaves the active id unchanged;
and the active-id-refers-to-an-open-tab invariant is preserved. -/
theorem C4_removeTab :
    ∀ (st : TabState) (tabId : Str), activeOk st →
      ((removeTab st tabId).openTabs =
        st.openTabs.filter (fun t => t.id != tabId)) ∧
      (st.activeTabId = some tabId → (removeTab st tabId).openTabs ≠ [] →
        ∃ t, (removeTab st tabId).openTabs.getLast? = some t ∧
          (removeTab st tabId).activeTabId = some t.id) ∧
      ((removeTab st tabId).openTabs = [] →
        (removeTab st tabId).activeTabId = none) ∧
      (st.activeTabId ≠ some tabId →
        (removeTab st tabId).activeTabId = st.activeTabId) ∧
      activeOk (removeTab st tabId) := by
  intro st tabId hok
  have hopen : (removeTab st tabId).openTabs =
      st.openTabs.filter (fun t => t.id != tabId) := rfl
  by_cases hA : st.activeTabId = some tabId
  · by_cases hN : (st.openTabs.filter (fun t => t.id != tabId)).isEmpty =
        true
    · have hact : (removeTab st tabId).activeTabId = none := by
        simp only [removeTab]
        rw [if_neg (by simp [hA, hN]), if_pos hN]
      refine ⟨rfl, ?_, fun _ => hact, fun hc => absurd hA hc, ?_⟩
      · intro _ hne
        rw [hopen] at hne
        exact absurd (List.isEmpty_iff.mp hN) hne
      · unfold activeOk
        rw [hact]
        trivial
    · have hgl : ∃ t, (st.openTabs.filter
          (fun t => t.id != tabId)).getLast? = some t := by
        rcases hg : (st.openTabs.filter
            (fun t => t.id != tabId)).getLast? with _ | t
        · rw [List.getLast?_eq_none_iff] at hg
          rw [hg] at hN
          simp at hN
        · exact ⟨t, hg⟩
      obtain ⟨t, ht⟩ := hgl
      have hact : (removeTab st tabId).activeTabId = some t.id := by
        simp only [removeTab]
        rw [if_pos (by simp [hA, hN]), ht]
      refine ⟨rfl, ?_, ?_, fun hc => absurd hA hc, ?_⟩
      · intro _ _
        exact ⟨t, by rw [hopen]; exact ht, hact⟩
      · intro hc
        rw [hopen] at hc
        rw [hc] at hN
        simp at hN
      · unfold activeOk
        rw [hact]
        exact ⟨t, by rw [hopen]; exact getLast?_mem ht, rfl⟩
  · have hbeq : (st.activeTabId == some tabId) = false :=
      beq_eq_false_iff_ne.mpr hA
    by_cases hN : (st.openTabs.filter (fun t => t.id != tabId)).isEmpty =
        true
    · have hnone : st.activeTabId = none := by
        rcases ha : st.activeTabId with _ | a
        · rfl
        · exfalso
          rw [ha] at hA
          unfold activeOk at hok
          rw [ha] at hok
          obtain ⟨u, hu, hid⟩ := hok
          have hmem : u ∈ st.openTabs.filter (fun t => t.id != tabId) := by
            rw [List.mem_filter]
            refine ⟨hu, ?_⟩
            simp only [bne_iff_ne, ne_eq, hid]
            intro hcontra
            exact hA (by rw [hcontra])
          rw [List.isEmpty_iff.mp hN] at hmem
          simp at hmem
      have hact : (removeTab st tabId).activeTabId = none := by
        simp only [removeTab]
        rw [if_neg (by simp [hbeq]), if_pos hN]
      refine ⟨rfl, fun hc => absurd hc hA, fun _ => hact, ?_, ?_⟩
      · intro _
        rw [hact, hnone]
      · unfold activeOk
        rw [hact]
        trivial
    · have hact : (removeTab st tabId).activeTabId = st.activeTabId := by
        simp only [removeTab]
        rw [if_neg (by simp [hbeq]), if_neg hN]
      refine ⟨rfl, fun hc => absurd hc hA, ?_, fun _ => hact, ?_⟩
      · intro hc
        rw [hopen] at hc
        rw [hc] at hN
        simp at hN
      · unfold activeOk
        rw [hact]
        rcases ha : st.activeTabId with _ | a
        · trivial
        · unfold activeOk at hok
          rw [ha] at hok
          obtain ⟨u, hu, hid⟩ := hok
          refine ⟨u, ?_, hid⟩
          rw [hopen, List.mem_filter]
          refine ⟨hu, ?_⟩
          simp only [bne_iff_ne, ne_eq, hid]
          intro hcontra
          rw [ha] at hA
          exact hA (by rw [hcontra])

/-- C4 witness: closing the only open tab sets the active id to null,
and closing a non-active tab leaves the active id unchanged. -/
theorem C4_removeTab_witness :
    (removeTab ⟨[⟨str "JP_1", baseCountry (str "Japan") (str "JP") 36
        138, none, none⟩], some (str "JP_1")⟩
      (str "JP_1")).activeTabId = none ∧
    (removeTab ⟨[⟨str "JP_1", baseCountry (str "Japan") (str "JP") 36
        138, none, none⟩, ⟨str "TH_2", baseCountry (str "Thailand")
        (str "TH") 15 100, none, none⟩], some (str "JP_1")⟩
      (str "TH_2")).activeTabId = some (str "JP_1") := by
  have h1 := C4_removeTab ⟨[⟨str "JP_1", baseCountry (str "Japan")
    (str "JP") 36 138, none, none⟩], some (str "JP_1")⟩ (str "JP_1")
    (by unfold activeOk; decide)
  have h2 := C4_removeTab ⟨[⟨str "JP_1", baseCountry (str "Japan")
    (str "JP") 36 138, none, none⟩, ⟨str "TH_2", baseCountry
    (str "Thailand") (str "TH") 15 100, none, none⟩],
    some (str "JP_1")⟩ (str "TH_2") (by unfold activeOk; decide)
  refine ⟨h1.2.2.1 (by decide), ?_⟩
  have h3 := h2.2.2.2.1 (by decide)
  rw [h3]

end AtlasIQ

namespace AtlasIQ

/-! ## Claim C8: gibberish rejection on plain queries -/

/-- C8 (confirmed): a Plain query (no near-me / locate-me / agent
pattern) whose extracted fragment is gibberish and that has no static
continent/country hit is rejected with the user-facing validation
message and nothing else happens: no remote resolution call, no tab
change, no camera motion — the run performs exactly the initial error
reset, the history entry, the validation error and a loading reset, and
returns the tab state unchanged. -/
theorem C8_plain_gibberish_rejected :
    ∀ (interests : Str) (countries : List Country) (env : Env)
      (st : TabState) (now : Nat) (loading0 : Bool),
      nearMeTest interests = false →
      isLocateMeQuery interests = false →
      isAgentQuery interests = false →
      detectLocation interests countries = none →
      looksLikeGibberish (extractPlace interests) = true →
      handleExplore interests countries env st now loading0 =
        ([Eff.setError none, Eff.addSearch interests,
          Eff.setError (some validationErrMsg), Eff.setLoading false],
          st) := by
  intro interests countries env st now l0 h1 h2 h3 h4 h5
  simp [handleExplore, exploreStep2, h1, h2, h3, h4, h5]

/-- C8 witness: `"zzzzzzq"` with an empty gazetteer. -/
theorem C8_plain_gibberish_rejected_witness :
    handleExplore (str "zzzzzzq") []
      ⟨.error ⟨none, []⟩, fun _ _ _ => .error ⟨none, []⟩,
        fun _ _ => .ok none, fun _ => .ok none,
        fun _ => .error ⟨none, []⟩⟩
      TabState.empty 1 false =
      ([Eff.setError none, Eff.addSearch (str "zzzzzzq"),
        Eff.setError (some validationErrMsg), Eff.setLoading false],
        TabState.empty) :=
  C8_plain_gibberish_rejected (str "zzzzzzq") [] _ TabState.empty 1 false
    (by decide) (by decide) (by decide) (by decide) (by decide)

end AtlasIQ

namespace AtlasIQ

/-! ## Claim C9: authentication failures -/

/-- C9 (confirmed): a 401 from the remote place resolution surfaces the
specific API-key message (distinct from the generic recommendation
failure message) and stops the run — no recommendation call, no tab, no
camera motion, state unchanged; a non-401 resolution failure on a plain
non-gibberish query falls through to the recommendation flow, whose own
failure message is again the API-key message exactly on a 401 and the
generic message otherwise. -/
theorem C9_auth_failure :
    apiKeyErrMsg ≠ recFailMsg ∧
    (∀ (interests : Str) (countries : List Country) (env : Env)
      (st : TabState) (now : Nat) (loading0 : Bool) (e : ApiErr),
      nearMeTest interests = false →
      isLocateMeQuery interests = false →
      detectLocation interests countries = none →
      (!looksLikeGibberish (extractPlace interests) ||
        isAgentQuery interests) = true →
      env.resolvePlace (if isAgentQuery interests then interests
        else extractPlace interests) = .error e →
      e.status = some 401 →
      handleExplore interests countries env st now loading0 =
        ([Eff.setError none, Eff.addSearch interests,
          Eff.setLoading true,
          Eff.resolveCall (if isAgentQuery interests then interests
            else extractPlace interests),
          Eff.setError (some apiKeyErrMsg), Eff.setLoading false],
          st)) ∧
    (∀ (interests : Str) (countries : List Country) (env : Env)
      (st : TabState) (now : Nat) (loading0 : Bool) (e e2 : ApiErr),
      nearMeTest interests = false →
      isLocateMeQuery interests = false →
      detectLocation interests countries = none →
      isAgentQuery interests = false →
      looksLikeGibberish (extractPlace interests) = false →
      env.resolvePlace (extractPlace interests) = .error e →
      (e.status == some 401) = false →
      env.getRecommendations interests = .error e2 →
      handleExplore interests countries env st now loading0 =
        ([Eff.setError none, Eff.addSearch interests,
          Eff.setLoading true,
          Eff.resolveCall (extractPlace interests)] ++
          (if !loading0 then [Eff.setLoading true] else []) ++
          [Eff.recommendCall interests,
           Eff.setError (some (if e2.status == some 401 then apiKeyErrMsg
             else recFailMsg)),
           Eff.setLoading false], st)) := by
  refine ⟨by decide, ?_, ?_⟩
  · intro interests countries env st now l0 e h1 h2 h3 hat hres h401
    simp [handleExplore, h1, h2, h3, hat, hres, h401]
  · intro interests countries env st now l0 e e2 h1 h2 h3 h4 h5 hres
      hne hrec
    simp [handleExplore, exploreStep2, h1, h2, h3, h4, h5, hres, hne,
      hrec]

/-- C9 witness: `"Eiffel Tower"` against an empty gazetteer, with a 401
resolver (first scenario) and with a 500 resolver plus a 500
recommender (second scenario). -/
theorem C9_auth_failure_witness :
    handleExplore (str "Eiffel Tower") []
      ⟨.error ⟨none, []⟩, fun _ _ _ => .error ⟨none, []⟩,
        fun _ _ => .ok none,
        fun _ => .error ⟨some 401, str "Unauthorized"⟩,
        fun _ => .error ⟨none, []⟩⟩
      TabState.empty 1 false =
      ([Eff.setError none, Eff.addSearch (str "Eiffel Tower"),
        Eff.setLoading true, Eff.resolveCall (str "eiffel tower"),
        Eff.setError (some apiKeyErrMsg), Eff.setLoading false],
        TabState.empty) ∧
    handleExplore (str "Eiffel Tower") []
      ⟨.error ⟨none, []⟩, fun _ _ _ => .error ⟨none, []⟩,
        fun _ _ => .ok none,
        fun _ => .error ⟨some 500, str "boom"⟩,
        fun _ => .error ⟨some 500, str "boom"⟩⟩
      TabState.empty 1 false =
      ([Eff.setError none, Eff.addSearch (str "Eiffel Tower"),
        Eff.setLoading true, Eff.resolveCall (str "eiffel tower"),
        Eff.setLoading true, Eff.recommendCall (str "Eiffel Tower"),
        Eff.setError (some recFailMsg), Eff.setLoading false],
        TabState.empty) := by
  constructor
  · have h := C9_auth_failure.2.1 (str "Eiffel Tower") []
      ⟨.error ⟨none, []⟩, fun _ _ _ => .error ⟨none, []⟩,
        fun _ _ => .ok none,
        fun _ => .error ⟨some 401, str "Unauthorized"⟩,
        fun _ => .error ⟨none, []⟩⟩
      TabState.empty 1 false ⟨some 401, str "Unauthorized"⟩
      (by decide) (by decide) (by decide) (by decide) rfl rfl
    rw [h]
    decide
  · have h := C9_auth_failure.2.2 (str "Eiffel Tower") []
      ⟨.error ⟨none, []⟩, fun _ _ _ => .error ⟨none, []⟩,
        fun _ _ => .ok none,
        fun _ => .error ⟨some 500, str "boom"⟩,
        fun _ => .error ⟨some 500, str "boom"⟩⟩
      TabState.empty 1 false ⟨some 500, str "boom"⟩ ⟨some 500, str "boom"⟩
      (by decide) (by decide) (by decide) (by decide) (by decide)
      rfl (by decide) rfl
    rw [h]
    decide

end AtlasIQ

namespace AtlasIQ

/-! ## Claim C7: agent queries and the remote resolver -/

/-- A trivial oracle environment: geolocation and recommendations fail
silently, reverse geocoding yields nothing, and the resolver finds no
place. -/
def envNone : Env :=
  ⟨.error ⟨none, []⟩, fun _ _ _ => .error ⟨none, []⟩,
    fun _ _ => .ok none, fun _ => .ok none, fun _ => .error ⟨none, []⟩⟩

/-- Is an effect a remote place-resolution call? -/
def Eff.isResolveCall : Eff → Bool
  | .resolveCall _ => true
  | _ => false

/-- C7 (corrected): when the static continent/country check misses, an
AgentQuery input does send the resolver the full original sentence
(whatever the extracted fragment looks like — no gibberish hypothesis
is needed), and when the resolver yields nothing, a synthetic chat-only
agent tab is opened carrying the original sentence as its initial
message. -/
theorem C7_agent_resolution :
    ∀ (interests : Str) (countries : List Country) (env : Env)
      (st : TabState) (now : Nat) (loading0 : Bool),
      nearMeTest interests = false →
      isLocateMeQuery interests = false →
      isAgentQuery interests = true →
      detectLocation interests countries = none →
      ((handleExplore interests countries env st now loading0).1.take 4 =
        [Eff.setError none, Eff.addSearch interests, Eff.setLoading true,
         Eff.resolveCall interests]) ∧
      (env.resolvePlace interests = .ok none →
        ∃ c : Country, c.chatOnly = true ∧
          c.initialMessage = some interests ∧
          c.name = str "AtlasIQ Agent" ∧
          c.code = str "_agent_" ++ natStr now ∧
          handleExplore interests countries env st now loading0 =
            ([Eff.setError none, Eff.addSearch interests,
              Eff.setLoading true, Eff.resolveCall interests,
              Eff.addTabEff c none none, Eff.setLoading false],
              (addTab st c none none now).2)) := by
  intro interests countries env st now l0 h1 h2 h3 h4
  constructor
  · rcases hres : env.resolvePlace interests with e | ro
    · by_cases h401 : (e.status == some 401) = true
      · simp [handleExplore, exploreStep2, openAgentTab, h1, h2, h3, h4,
          hres, h401]
      · simp [handleExplore, exploreStep2, openAgentTab, h1, h2, h3, h4,
          hres, Bool.eq_false_iff.mpr h401]
    · rcases htr : truthyResolved ro with _ | r
      · simp [handleExplore, exploreStep2, openAgentTab, h1, h2, h3, h4,
          hres, htr]
      · simp [handleExplore, navigateToResolved, h1, h2, h3, h4, hres,
          htr]
  · intro hres
    refine ⟨mkChatOnly (str "AtlasIQ Agent") (str "_agent_" ++ natStr now)
      0 0 (some (if 30 < interests.length then interests.take 30 ++
        str "..." else interests)) (some interests), rfl, rfl, rfl, rfl,
      ?_⟩
    simp [handleExplore, exploreStep2, openAgentTab, h1, h2, h3, h4, hres,
      truthyResolved]

/-- C7 witness: `"compare Japan and Thailand"` against an *empty*
gazetteer: the resolver receives the full sentence; with a no-place
resolver, a chat-only agent tab carrying the sentence opens. -/
theorem C7_agent_resolution_witness :
    ((handleExplore (str "compare Japan and Thailand") [] envNone
        TabState.empty 1 false).1.take 4 =
      [Eff.setError none, Eff.addSearch (str "compare Japan and Thailand"),
       Eff.setLoading true,
       Eff.resolveCall (str "compare Japan and Thailand")]) ∧
    (∃ c : Country, c.chatOnly = true ∧
      c.initialMessage = some (str "compare Japan and Thailand") ∧
      c.name = str "AtlasIQ Agent" ∧
      c.code = str "_agent_" ++ natStr 1 ∧
      handleExplore (str "compare Japan and Thailand") [] envNone
        TabState.empty 1 false =
        ([Eff.setError none,
          Eff.addSearch (str "compare Japan and Thailand"),
          Eff.setLoading true,
          Eff.resolveCall (str "compare Japan and Thailand"),
          Eff.addTabEff c none none, Eff.setLoading false],
          (addTab TabState.empty c none none 1).2)) := by
  have h := C7_agent_resolution (str "compare Japan and Thailand") []
    envNone TabState.empty 1 false (by decide) (by decide) (by decide)
    (by decide)
  exact ⟨h.1, h.2 rfl⟩

/-- C7 counterexample: the claim as stated fails — for the AgentQuery
input `"compare Japan and Thailand"` with Japan and Thailand in the
gazetteer, the static substring check hits Japan first, so the remote
resolver is never called and the opened tab is a (non-chat-only) Japan
tab rather than a synthetic agent tab. -/
theorem C7_agent_resolution_cex :
    isAgentQuery (str "compare Japan and Thailand") = true ∧
    ((handleExplore (str "compare Japan and Thailand")
        [baseCountry (str "Japan") (str "JP") 36 138,
         baseCountry (str "Thailand") (str "TH") 15 100] envNone
        TabState.empty 1 false).1.filter Eff.isResolveCall = []) ∧
    ((handleExplore (str "compare Japan and Thailand")
        [baseCountry (str "Japan") (str "JP") 36 138,
         baseCountry (str "Thailand") (str "TH") 15 100] envNone
        TabState.empty 1 false).1.all (fun ef =>
          match ef with
          | Eff.addTabEff c _ _ => !c.chatOnly &&
              (c.name == str "Japan") &&
              (c.initialMessage ==
                some (str "compare Japan and Thailand"))
          | _ => true)) ∧
    ((handleExplore (str "compare Japan and Thailand")
        [baseCountry (str "Japan") (str "JP") 36 138,
         baseCountry (str "Thailand") (str "TH") 15 100] envNone
        TabState.empty 1 false).1.countP (fun ef =>
          match ef with
          | Eff.addTabEff _ _ _ => true
          | _ => false) = 1) := by decide

end AtlasIQ

namespace AtlasIQ

/-! ## Claim C6: plain continent vs country queries -/

/-- C6 (confirmed): a plain `"Asia"` query flies the camera to the Asia
centroid with the continent altitude and performs nothing else — in
particular no tab is opened and the tab state is unchanged; a plain
`"Japan"` query that hits a gazetteer country opens/activates exactly
one tab for it and flies the camera to it (with the asynchronous photo
pin keyed by the new tab id). -/
theorem C6_plain_continent_country :
    (∀ (countries : List Country) (env : Env) (st : TabState) (now : Nat)
      (loading0 : Bool),
      handleExplore (str "Asia") countries env st now loading0 =
        ([Eff.setError none, Eff.addSearch (str "Asia"),
          Eff.flyTo 35 90 (some 8000000)], st)) ∧
    (∀ (countries : List Country) (c : Country) (env : Env)
      (st : TabState) (now : Nat) (loading0 : Bool),
      detectLocation (str "Japan") countries = some (.country c) →
      handleExplore (str "Japan") countries env st now loading0 =
        ([Eff.setError none, Eff.addSearch (str "Japan"),
          Eff.addTabEff c none none, Eff.flyTo c.lat c.lng none] ++
          pinPhotoOnGlobe c.lat c.lng none (some c.name)
            (some (addTab st c none none now).1),
          (addTab st c none none now).2) ∧
      (st.openTabs = [] →
        (addTab st c none none now).2.openTabs.length = 1 ∧
        (addTab st c none none now).2.activeTabId =
          some (addTab st c none none now).1)) := by
  constructor
  · intro countries env st now l0
    have h1 : nearMeTest (str "Asia") = false := by decide
    have h2 : isLocateMeQuery (str "Asia") = false := by decide
    have hd : detectLocation (str "Asia") countries =
        some (.continent (str "asia") 35 90 8000000) := rfl
    simp [handleExplore, h1, h2, hd]
  · intro countries c env st now l0 h
    have h1 : nearMeTest (str "Japan") = false := by decide
    have h2 : isLocateMeQuery (str "Japan") = false := by decide
    have h3 : isAgentQuery (str "Japan") = false := by decide
    refine ⟨?_, ?_⟩
    · simp [handleExplore, h1, h2, h3, h]
    · intro hempty
      have hf : st.openTabs.find? (tabKeyEq c) = none := by
        rw [hempty]
        rfl
      rw [addTab_new hf, hempty]
      exact ⟨rfl, rfl⟩

/-- C6 witness: the Japan conjunct applied to a one-country gazetteer
and the empty tab state. -/
theorem C6_plain_continent_country_witness :
    handleExplore (str "Japan") [baseCountry (str "Japan") (str "JP") 36
        138] envNone TabState.empty 1 false =
      ([Eff.setError none, Eff.addSearch (str "Japan"),
        Eff.addTabEff (baseCountry (str "Japan") (str "JP") 36 138) none
          none,
        Eff.flyTo 36 138 none] ++
        pinPhotoOnGlobe 36 138 none (some (str "Japan"))
          (some (addTab TabState.empty (baseCountry (str "Japan")
            (str "JP") 36 138) none none 1).1),
        (addTab TabState.empty (baseCountry (str "Japan") (str "JP") 36
          138) none none 1).2) ∧
    (addTab TabState.empty (baseCountry (str "Japan") (str "JP") 36 138)
      none none 1).2.openTabs.length = 1 := by
  have h := C6_plain_continent_country.2
    [baseCountry (str "Japan") (str "JP") 36 138]
    (baseCountry (str "Japan") (str "JP") 36 138) envNone TabState.empty
    1 false (by decide)
  exact ⟨h.1, (h.2 rfl).1⟩

/-! ## Claim C10: continent-containment priority -/

/-- Is an effect a tab-opening/activation? -/
def Eff.isAddTab : Eff → Bool
  | .addTabEff _ _ _ => true
  | _ => false

/-- C10 (corrected): whenever the normalized input equals or contains a
continent-table name (witnessed by the table lookup), the controller is
camera-only — it flies to that continent's centroid and opens no tab,
whatever the gazetteer contains; `"South Africa"` exhibits this (its
normalized form contains `"africa"`) even when the gazetteer's first
entry is the exactly-matching country. -/
theorem C10_continent_priority :
    (∀ (input : Str) (countries : List Country) (env : Env)
      (st : TabState) (now : Nat) (loading0 : Bool) (nm : Str)
      (d : ContData),
      nearMeTest input = false →
      isLocateMeQuery input = false →
      CONTINENTS.find? (fun p => extractPlace input == p.1 ||
        containsSub (extractPlace input) p.1) = some (nm, d) →
      handleExplore input countries env st now loading0 =
        ([Eff.setError none, Eff.addSearch input,
          Eff.flyTo d.lat d.lng (some d.alt)], st)) ∧
    (∀ (cs : List Country) (env : Env) (st : TabState) (now : Nat)
      (loading0 : Bool),
      handleExplore (str "South Africa")
        (baseCountry (str "South Africa") (str "ZA") (-29) 24 :: cs) env
        st now loading0 =
        ([Eff.setError none, Eff.addSearch (str "South Africa"),
          Eff.flyTo 2 21 (some 8000000)], st)) := by
  constructor
  · intro input countries env st now l0 nm d h1 h2 hfind
    have hne : (extractPlace input).isEmpty = false := by
      rcases hp : extractPlace input with _ | ⟨a, t⟩
      · rw [hp] at hfind
        have : CONTINENTS.find? (fun p => ([] : Str) == p.1 ||
            containsSub [] p.1) = none := by decide
        rw [this] at hfind
        exact absurd hfind (by simp)
      · rfl
    have hdet : detectLocation input countries =
        some (.continent nm d.lat d.lng d.alt) := by
      unfold detectLocation
      rw [if_neg (by simp [hne]), findContinentLoop_eq_find, hfind]
      rfl
    simp [handleExplore, h1, h2, hdet]
  · intro cs env st now l0
    have h1 : nearMeTest (str "South Africa") = false := by decide
    have h2 : isLocateMeQuery (str "South Africa") = false := by decide
    have hd : detectLocation (str "South Africa")
        (baseCountry (str "South Africa") (str "ZA") (-29) 24 :: cs) =
        some (.continent (str "africa") 2 21 8000000) := by
      unfold detectLocation
      rw [if_neg (by decide)]
      rfl
    simp [handleExplore, h1, h2, hd]

/-- C10 witness: the universal conjunct applied to `"South Africa"`
with the exactly-matching country first in the gazetteer. -/
theorem C10_continent_priority_witness :
    handleExplore (str "South Africa")
      [baseCountry (str "South Africa") (str "ZA") (-29) 24] envNone
      TabState.empty 1 false =
      ([Eff.setError none, Eff.addSearch (str "South Africa"),
        Eff.flyTo 2 21 (some 8000000)], TabState.empty) :=
  C10_continent_priority.1 (str "South Africa")
    [baseCountry (str "South Africa") (str "ZA") (-29) 24] envNone
    TabState.empty 1 false (str "africa") ⟨2, 21, 8000000⟩ (by decide)
    (by decide) (by decide)

/-- C10 counterexample: the claim's own example is false — the
normalized `"Malaysia"` does NOT contain `"asia"` as a substring
(m-a-l-a-y-s-i-a), so it is resolved as the country Malaysia: a tab is
opened for it and the camera flies to the country, not to the Asia
centroid. -/
theorem C10_continent_priority_cex :
    containsSub (extractPlace (str "Malaysia")) (str "asia") = false ∧
    detectLocation (str "Malaysia")
      [baseCountry (str "Malaysia") (str "MY") 4 101] =
      some (.country (baseCountry (str "Malaysia") (str "MY") 4 101)) ∧
    (handleExplore (str "Malaysia")
      [baseCountry (str "Malaysia") (str "MY") 4 101] envNone
      TabState.empty 1 false).1.countP Eff.isAddTab = 1 ∧
    (handleExplore (str "Malaysia")
      [baseCountry (str "Malaysia") (str "MY") 4 101] envNone
      TabState.empty 1 false).1.countP
        (fun ef => ef == Eff.flyTo 35 90 (some 8000000)) = 0 := by
  decide

end AtlasIQ
